import Mathlib

/-
Shallow embedding of the gb-emulator sources (src/cpu.rs, src/instructions.rs,
src/gpu.rs) for checking the natural-language specification against the code.

Machine integers are modelled as `Nat` with explicit `% 2^w` where the Rust
code wraps, and Rust panics (array indexing out of bounds, explicit `panic!`)
are modelled by `Option`: a `none` result is an unrecoverable failure of the
Rust program.  The file `registers.rs` is referenced by cpu.rs but is not among
the provided sources; the handful of `Registers` definitions it would contain
are modelled from the spec and marked as such in their doc comments.
-/

namespace GB

/-- The four condition flags of the flags register (spec section 3; the
`FlagsRegister` struct lives in the missing registers.rs but its four boolean
fields are dictated by every use in cpu.rs). -/
structure FlagsRegister where
  zero : Bool
  subtract : Bool
  half_carry : Bool
  carry : Bool
deriving DecidableEq

/-- The register file: seven 8-bit registers plus the flags (spec section 3;
field names are exactly the ones cpu.rs accesses on `self.registers`). -/
structure Registers where
  a : Nat
  b : Nat
  c : Nat
  d : Nat
  e : Nat
  f : FlagsRegister
  h : Nat
  l : Nat
deriving DecidableEq

/-- Modelled from the spec: registers.rs is missing from the sources.  Spec
section 3, register pairs are views with the high register supplying the upper
byte and the low register the lower byte. -/
def Registers.get_bc (r : Registers) : Nat := (r.b <<< 8) ||| r.c

/-- Modelled from the spec: counterpart of `get_bc`, splitting a 16-bit value
into its high and low bytes. -/
def Registers.set_bc (r : Registers) (value : Nat) : Registers :=
  { r with b := (value &&& 0xFF00) >>> 8, c := value &&& 0xFF }

/-- Modelled from the spec: DE pair view, as for BC. -/
def Registers.get_de (r : Registers) : Nat := (r.d <<< 8) ||| r.e

/-- Modelled from the spec: DE pair view, as for BC. -/
def Registers.set_de (r : Registers) (value : Nat) : Registers :=
  { r with d := (value &&& 0xFF00) >>> 8, e := value &&& 0xFF }

/-- Modelled from the spec: HL pair view, as for BC. -/
def Registers.get_hl (r : Registers) : Nat := (r.h <<< 8) ||| r.l

/-- Modelled from the spec: HL pair view, as for BC. -/
def Registers.set_hl (r : Registers) (value : Nat) : Registers :=
  { r with h := (value &&& 0xFF00) >>> 8, l := value &&& 0xFF }

/-- Modelled from the spec: the packed flags byte (spec section 3 and 4.1),
zero/subtract/half-carry/carry in bits 7 down to 4, low nibble always zero. -/
def FlagsRegister.toByte (f : FlagsRegister) : Nat :=
  (if f.zero then 0x80 else 0) ||| (if f.subtract then 0x40 else 0) |||
  (if f.half_carry then 0x20 else 0) ||| (if f.carry then 0x10 else 0)

/-- Modelled from the spec: unpacking the flags byte; only bits 7..4 are
consulted, so the low nibble is clamped to zero by construction. -/
def FlagsRegister.ofByte (byte : Nat) : FlagsRegister :=
  { zero := byte &&& 0x80 != 0
    subtract := byte &&& 0x40 != 0
    half_carry := byte &&& 0x20 != 0
    carry := byte &&& 0x10 != 0 }

/-- Modelled from the spec: AF pair view, register A as upper byte and the
packed flags byte as lower byte. -/
def Registers.get_af (r : Registers) : Nat := (r.a <<< 8) ||| r.f.toByte

/-- Modelled from the spec: setting AF writes A and re-derives the four flag
booleans from the byte (spec section 4.1: the low nibble is clamped to zero). -/
def Registers.set_af (r : Registers) (value : Nat) : Registers :=
  { r with a := (value &&& 0xFF00) >>> 8, f := FlagsRegister.ofByte (value &&& 0xFF) }

/-- Size of the backing array of the memory bus: cpu.rs declares
`memory: [u8; 0xFFFF]`, an array of 0xFFFF = 65535 bytes (valid indices
0 .. 0xFFFE). -/
def MEMORY_ARRAY_SIZE : Nat := 0xFFFF

/-- The memory bus of cpu.rs: `struct MemoryBus { memory: [u8; 0xFFFF] }`.
The array is modelled as a function from index to stored byte. -/
structure MemoryBus where
  memory : Nat → Nat

/-- `MemoryBus::read_byte`: `self.memory[address as usize]`.  Rust array
indexing panics when the index is not below the array length, hence the
`Option`; the `% 256` models the `u8` element type. -/
def MemoryBus.read_byte (bus : MemoryBus) (address : Nat) : Option Nat :=
  if address < MEMORY_ARRAY_SIZE then some (bus.memory address % 256) else none

/-- `MemoryBus::read_word`: little-endian, the partner address is
`address.wrapping_add(1)`, i.e. `(address + 1) % 2^16`. -/
def MemoryBus.read_word (bus : MemoryBus) (address : Nat) : Option Nat := do
  let least_significant_byte ← bus.read_byte address
  let most_significant_byte ← bus.read_byte ((address + 1) % 65536)
  pure ((most_significant_byte <<< 8) ||| least_significant_byte)

/-- `MemoryBus::write_byte`: `self.memory[address as usize] = value`, with the
same panicking bounds behaviour as `read_byte`; the stored value is a `u8`. -/
def MemoryBus.write_byte (bus : MemoryBus) (address : Nat) (value : Nat) : Option MemoryBus :=
  if address < MEMORY_ARRAY_SIZE then
    some ⟨fun i => if i = address then value % 256 else bus.memory i⟩
  else none

/-- `MemoryBus::write_word`: low byte `value & 0xFF` at `address`, high byte
`(value & 0xFF00) >> 8` at the wrapped partner address. -/
def MemoryBus.write_word (bus : MemoryBus) (address : Nat) (value : Nat) : Option MemoryBus := do
  let least_significant_byte := value &&& 0xFF
  let most_significant_byte := (value &&& 0xFF00) >>> 8
  let bus ← bus.write_byte address least_significant_byte
  bus.write_byte ((address + 1) % 65536) most_significant_byte

/-- instructions.rs `enum JumpTest`. -/
inductive JumpTest
  | NotZero
  | Zero
  | NotCarry
  | Carry
  | Always
deriving DecidableEq

/-- instructions.rs `enum LoadByteTarget`. -/
inductive LoadByteTarget
  | A | B | C | D | E | H | L | BC | DE | HL
deriving DecidableEq

/-- instructions.rs `enum LoadByteSource`. -/
inductive LoadByteSource
  | A | B | C | D | E | H | L | BC | DE | HL | N8
deriving DecidableEq

/-- instructions.rs `enum LoadWordTarget`. -/
inductive LoadWordTarget
  | BC | DE | HL | SP | A16
deriving DecidableEq

/-- instructions.rs `enum LoadWordSource`. -/
inductive LoadWordSource
  | N16 | SP
deriving DecidableEq

/-- instructions.rs `enum LoadIncDecTarget`. -/
inductive LoadIncDecTarget
  | HL | A
deriving DecidableEq

/-- instructions.rs `enum LoadIncDecSource`. -/
inductive LoadIncDecSource
  | HL | A
deriving DecidableEq

/-- instructions.rs `enum AddressMode`. -/
inductive AddressMode
  | Inc | Dec
deriving DecidableEq

/-- instructions.rs `enum LoadType`. -/
inductive LoadType
  | Byte (target : LoadByteTarget) (source : LoadByteSource)
  | Word (target : LoadWordTarget) (source : LoadWordSource)
  | AddressIncDec (target : LoadIncDecTarget) (source : LoadIncDecSource) (mode : AddressMode)
deriving DecidableEq

/-- instructions.rs `enum StackTarget`. -/
inductive StackTarget
  | BC | DE | HL | AF
deriving DecidableEq

/-- instructions.rs `enum ArithmeticTarget`. -/
inductive ArithmeticTarget
  | A | B | C | D | E | H | L | BC | DE | HL | SP | N8
deriving DecidableEq

/-- instructions.rs `enum Instruction`, extended with the three prefixed
constructors `BIT`/`RES`/`SET` that cpu.rs's `execute` dispatches on (the
provided instructions.rs snapshot predates them but execute requires them). -/
inductive Instruction
  | JP (test : JumpTest)
  | JR (test : JumpTest)
  | JPHL
  | LD (load_type : LoadType)
  | PUSH (target : StackTarget)
  | POP (target : StackTarget)
  | ADD (target : ArithmeticTarget)
  | ADDHL (target : ArithmeticTarget)
  | ADC (target : ArithmeticTarget)
  | SUB (target : ArithmeticTarget)
  | SBC (target : ArithmeticTarget)
  | AND (target : ArithmeticTarget)
  | OR (target : ArithmeticTarget)
  | XOR (target : ArithmeticTarget)
  | CP (target : ArithmeticTarget)
  | INC (target : ArithmeticTarget)
  | DEC (target : ArithmeticTarget)
  | INC16 (target : ArithmeticTarget)
  | DEC16 (target : ArithmeticTarget)
  | CCF
  | SCF
  | RRA
  | RLA
  | RRCA
  | RLCA
  | CPL
  | BIT (bit : Nat) (target : ArithmeticTarget)
  | RES (bit : Nat) (target : ArithmeticTarget)
  | SET (bit : Nat) (target : ArithmeticTarget)
deriving DecidableEq

/-- `Instruction::from_byte_standard`.  The Rust function has return type
`Option<Instruction>` but its catch-all arm is `panic!`, so the embedding
returns the declared `Option Instruction` inside the partiality layer:
`some (some i)` for a table entry, `none` for the panicking catch-all; the
value `some none` (a returned `None`) is produced by no arm. -/
def Instruction.from_byte_standard (byte : Nat) : Option (Option Instruction) :=
  match byte with
  -- LD Byte, Target B
  | 0x06 => some (some (Instruction.LD (LoadType.Byte LoadByteTarget.B LoadByteSource.N8)))
  | 0x40 => some (some (Instruction.LD (LoadType.Byte LoadByteTarget.B LoadByteSource.B)))
  | 0x41 => some (some (Instruction.LD (LoadType.Byte LoadByteTarget.B LoadByteSource.C)))
  | 0x42 => some (some (Instruction.LD (LoadType.Byte LoadByteTarget.B LoadByteSource.D)))
  | 0x43 => some (some (Instruction.LD (LoadType.Byte LoadByteTarget.B LoadByteSource.E)))
  | 0x44 => some (some (Instruction.LD (LoadType.Byte LoadByteTarget.B LoadByteSource.H)))
  | 0x45 => some (some (Instruction.LD (LoadType.Byte LoadByteTarget.B LoadByteSource.L)))
  | 0x46 => some (some (Instruction.LD (LoadType.Byte LoadByteTarget.B LoadByteSource.HL)))
  | 0x47 => some (some (Instruction.LD (LoadType.Byte LoadByteTarget.B LoadByteSource.A)))
  -- LD Byte, Target C
  | 0x0E => some (some (Instruction.LD (LoadType.Byte LoadByteTarget.C LoadByteSource.N8)))
  | 0x48 => some (some (Instruction.LD (LoadType.Byte LoadByteTarget.C LoadByteSource.B)))
  | 0x49 => some (some (Instruction.LD (LoadType.Byte LoadByteTarget.C LoadByteSource.C)))
  | 0x4A => some (some (Instruction.LD (LoadType.Byte LoadByteTarget.C LoadByteSource.D)))
  | 0x4B => some (some (Instruction.LD (LoadType.Byte LoadByteTarget.C LoadByteSource.E)))
  | 0x4C => some (some (Instruction.LD (LoadType.Byte LoadByteTarget.C LoadByteSource.H)))
  | 0x4D => some (some (Instruction.LD (LoadType.Byte LoadByteTarget.C LoadByteSource.L)))
  | 0x4E => some (some (Instruction.LD (LoadType.Byte LoadByteTarget.C LoadByteSource.HL)))
  | 0x4F => some (some (Instruction.LD (LoadType.Byte LoadByteTarget.C LoadByteSource.A)))
  -- LD Byte, Target D
  | 0x16 => some (some (Instruction.LD (LoadType.Byte LoadByteTarget.D LoadByteSource.N8)))
  | 0x50 => some (some (Instruction.LD (LoadType.Byte LoadByteTarget.D LoadByteSource.B)))
  | 0x51 => some (some (Instruction.LD (LoadType.Byte LoadByteTarget.D LoadByteSource.C)))
  | 0x52 => some (some (Instruction.LD (LoadType.Byte LoadByteTarget.D LoadByteSource.D)))
  | 0x53 => some (some (Instruction.LD (LoadType.Byte LoadByteTarget.D LoadByteSource.E)))
  | 0x54 => some (some (Instruction.LD (LoadType.Byte LoadByteTarget.D LoadByteSource.H)))
  | 0x55 => some (some (Instruction.LD (LoadType.Byte LoadByteTarget.D LoadByteSource.L)))
  | 0x56 => some (some (Instruction.LD (LoadType.Byte LoadByteTarget.D LoadByteSource.HL)))
  | 0x57 => some (some (Instruction.LD (LoadType.Byte LoadByteTarget.D LoadByteSource.A)))
  -- LD Byte, Target E
  | 0x1E => some (some (Instruction.LD (LoadType.Byte LoadByteTarget.E LoadByteSource.N8)))
  | 0x58 => some (some (Instruction.LD (LoadType.Byte LoadByteTarget.E LoadByteSource.B)))
  | 0x59 => some (some (Instruction.LD (LoadType.Byte LoadByteTarget.E LoadByteSource.C)))
  | 0x5A => some (some (Instruction.LD (LoadType.Byte LoadByteTarget.E LoadByteSource.D)))
  | 0x5B => some (some (Instruction.LD (LoadType.Byte LoadByteTarget.E LoadByteSource.E)))
  | 0x5C => some (some (Instruction.LD (LoadType.Byte LoadByteTarget.E LoadByteSource.H)))
  | 0x5D => some (some (Instruction.LD (LoadType.Byte LoadByteTarget.E LoadByteSource.L)))
  | 0x5E => some (some (Instruction.LD (LoadType.Byte LoadByteTarget.E LoadByteSource.HL)))
  | 0x5F => some (some (Instruction.LD (LoadType.Byte LoadByteTarget.E LoadByteSource.A)))
  -- LD Byte, Target H
  | 0x26 => some (some (Instruction.LD (LoadType.Byte LoadByteTarget.H LoadByteSource.N8)))
  | 0x60 => some (some (Instruction.LD (LoadType.Byte LoadByteTarget.H LoadByteSource.B)))
  | 0x61 => some (some (Instruction.LD (LoadType.Byte LoadByteTarget.H LoadByteSource.C)))
  | 0x62 => some (some (Instruction.LD (LoadType.Byte LoadByteTarget.H LoadByteSource.D)))
  | 0x63 => some (some (Instruction.LD (LoadType.Byte LoadByteTarget.H LoadByteSource.E)))
  | 0x64 => some (some (Instruction.LD (LoadType.Byte LoadByteTarget.H LoadByteSource.H)))
  | 0x65 => some (some (Instruction.LD (LoadType.Byte LoadByteTarget.H LoadByteSource.L)))
  | 0x66 => some (some (Instruction.LD (LoadType.Byte LoadByteTarget.H LoadByteSource.HL)))
  | 0x67 => some (some (Instruction.LD (LoadType.Byte LoadByteTarget.H LoadByteSource.A)))
  -- LD Byte, Target L
  | 0x2E => some (some (Instruction.LD (LoadType.Byte LoadByteTarget.L LoadByteSource.N8)))
  | 0x68 => some (some (Instruction.LD (LoadType.Byte LoadByteTarget.L LoadByteSource.B)))
  | 0x69 => some (some (Instruction.LD (LoadType.Byte LoadByteTarget.L LoadByteSource.C)))
  | 0x6A => some (some (Instruction.LD (LoadType.Byte LoadByteTarget.L LoadByteSource.D)))
  | 0x6B => some (some (Instruction.LD (LoadType.Byte LoadByteTarget.L LoadByteSource.E)))
  | 0x6C => some (some (Instruction.LD (LoadType.Byte LoadByteTarget.L LoadByteSource.H)))
  | 0x6D => some (some (Instruction.LD (LoadType.Byte LoadByteTarget.L LoadByteSource.L)))
  | 0x6E => some (some (Instruction.LD (LoadType.Byte LoadByteTarget.L LoadByteSource.HL)))
  | 0x6F => some (some (Instruction.LD (LoadType.Byte LoadByteTarget.L LoadByteSource.A)))
  -- LD Byte, Target [HL]
  | 0x36 => some (some (Instruction.LD (LoadType.Byte LoadByteTarget.HL LoadByteSource.N8)))
  | 0x70 => some (some (Instruction.LD (LoadType.Byte LoadByteTarget.HL LoadByteSource.B)))
  | 0x71 => some (some (Instruction.LD (LoadType.Byte LoadByteTarget.HL LoadByteSource.C)))
  | 0x72 => some (some (Instruction.LD (LoadType.Byte LoadByteTarget.HL LoadByteSource.D)))
  | 0x73 => some (some (Instruction.LD (LoadType.Byte LoadByteTarget.HL LoadByteSource.E)))
  | 0x74 => some (some (Instruction.LD (LoadType.Byte LoadByteTarget.HL LoadByteSource.H)))
  | 0x75 => some (some (Instruction.LD (LoadType.Byte LoadByteTarget.HL LoadByteSource.L)))
  -- 0x76 => HALT
  | 0x77 => some (some (Instruction.LD (LoadType.Byte LoadByteTarget.HL LoadByteSource.A)))
  -- LD Byte, Target A
  | 0x3E => some (some (Instruction.LD (LoadType.Byte LoadByteTarget.A LoadByteSource.N8)))
  | 0x78 => some (some (Instruction.LD (LoadType.Byte LoadByteTarget.A LoadByteSource.B)))
  | 0x79 => some (some (Instruction.LD (LoadType.Byte LoadByteTarget.A LoadByteSource.C)))
  | 0x7A => some (some (Instruction.LD (LoadType.Byte LoadByteTarget.A LoadByteSource.D)))
  | 0x7B => some (some (Instruction.LD (LoadType.Byte LoadByteTarget.A LoadByteSource.E)))
  | 0x7C => some (some (Instruction.LD (LoadType.Byte LoadByteTarget.A LoadByteSource.H)))
  | 0x7D => some (some (Instruction.LD (LoadType.Byte LoadByteTarget.A LoadByteSource.L)))
  | 0x7E => some (some (Instruction.LD (LoadType.Byte LoadByteTarget.A LoadByteSource.HL)))
  | 0x7F => some (some (Instruction.LD (LoadType.Byte LoadByteTarget.A LoadByteSource.A)))
  -- INC
  | 0x04 => some (some (Instruction.INC ArithmeticTarget.B))
  | 0x0C => some (some (Instruction.INC ArithmeticTarget.C))
  | 0x14 => some (some (Instruction.INC ArithmeticTarget.D))
  | 0x1C => some (some (Instruction.INC ArithmeticTarget.E))
  | 0x24 => some (some (Instruction.INC ArithmeticTarget.H))
  | 0x2C => some (some (Instruction.INC ArithmeticTarget.L))
  | 0x34 => some (some (Instruction.INC ArithmeticTarget.HL))
  | 0x3C => some (some (Instruction.INC ArithmeticTarget.A))
  -- DEC
  | 0x05 => some (some (Instruction.DEC ArithmeticTarget.B))
  | 0x0D => some (some (Instruction.DEC ArithmeticTarget.C))
  | 0x15 => some (some (Instruction.DEC ArithmeticTarget.D))
  | 0x1D => some (some (Instruction.DEC ArithmeticTarget.E))
  | 0x25 => some (some (Instruction.DEC ArithmeticTarget.H))
  | 0x2D => some (some (Instruction.DEC ArithmeticTarget.L))
  | 0x35 => some (some (Instruction.DEC ArithmeticTarget.HL))
  | 0x3D => some (some (Instruction.DEC ArithmeticTarget.A))
  -- INC16
  | 0x03 => some (some (Instruction.INC16 ArithmeticTarget.BC))
  | 0x13 => some (some (Instruction.INC16 ArithmeticTarget.DE))
  | 0x23 => some (some (Instruction.INC16 ArithmeticTarget.HL))
  | 0x33 => some (some (Instruction.INC16 ArithmeticTarget.SP))
  -- DEC16
  | 0x0B => some (some (Instruction.DEC16 ArithmeticTarget.BC))
  | 0x1B => some (some (Instruction.DEC16 ArithmeticTarget.DE))
  | 0x2B => some (some (Instruction.DEC16 ArithmeticTarget.HL))
  | 0x3B => some (some (Instruction.DEC16 ArithmeticTarget.SP))
  -- ADDHL
  | 0x09 => some (some (Instruction.ADDHL ArithmeticTarget.BC))
  | 0x19 => some (some (Instruction.ADDHL ArithmeticTarget.DE))
  | 0x29 => some (some (Instruction.ADDHL ArithmeticTarget.HL))
  | 0x39 => some (some (Instruction.ADDHL ArithmeticTarget.SP))
  -- ADD
  | 0x80 => some (some (Instruction.ADD ArithmeticTarget.B))
  | 0x81 => some (some (Instruction.ADD ArithmeticTarget.C))
  | 0x82 => some (some (Instruction.ADD ArithmeticTarget.D))
  | 0x83 => some (some (Instruction.ADD ArithmeticTarget.E))
  | 0x84 => some (some (Instruction.ADD ArithmeticTarget.H))
  | 0x85 => some (some (Instruction.ADD ArithmeticTarget.L))
  | 0x86 => some (some (Instruction.ADD ArithmeticTarget.HL))
  | 0x87 => some (some (Instruction.ADD ArithmeticTarget.A))
  | 0xC6 => some (some (Instruction.ADD ArithmeticTarget.N8))
  -- ADC
  | 0x88 => some (some (Instruction.ADC ArithmeticTarget.B))
  | 0x89 => some (some (Instruction.ADC ArithmeticTarget.C))
  | 0x8A => some (some (Instruction.ADC ArithmeticTarget.D))
  | 0x8B => some (some (Instruction.ADC ArithmeticTarget.E))
  | 0x8C => some (some (Instruction.ADC ArithmeticTarget.H))
  | 0x8D => some (some (Instruction.ADC ArithmeticTarget.L))
  | 0x8E => some (some (Instruction.ADC ArithmeticTarget.HL))
  | 0x8F => some (some (Instruction.ADC ArithmeticTarget.A))
  | 0xCE => some (some (Instruction.ADC ArithmeticTarget.N8))
  -- SUB
  | 0x90 => some (some (Instruction.SUB ArithmeticTarget.B))
  | 0x91 => some (some (Instruction.SUB ArithmeticTarget.C))
  | 0x92 => some (some (Instruction.SUB ArithmeticTarget.D))
  | 0x93 => some (some (Instruction.SUB ArithmeticTarget.E))
  | 0x94 => some (some (Instruction.SUB ArithmeticTarget.H))
  | 0x95 => some (some (Instruction.SUB ArithmeticTarget.L))
  | 0x96 => some (some (Instruction.SUB ArithmeticTarget.HL))
  | 0x97 => some (some (Instruction.SUB ArithmeticTarget.A))
  | 0xD6 => some (some (Instruction.SUB ArithmeticTarget.N8))
  -- SBC
  | 0x98 => some (some (Instruction.SBC ArithmeticTarget.B))
  | 0x99 => some (some (Instruction.SBC ArithmeticTarget.C))
  | 0x9A => some (some (Instruction.SBC ArithmeticTarget.D))
  | 0x9B => some (some (Instruction.SBC ArithmeticTarget.E))
  | 0x9C => some (some (Instruction.SBC ArithmeticTarget.H))
  | 0x9D => some (some (Instruction.SBC ArithmeticTarget.L))
  | 0x9E => some (some (Instruction.SBC ArithmeticTarget.HL))
  | 0x9F => some (some (Instruction.SBC ArithmeticTarget.A))
  | 0xDE => some (some (Instruction.SBC ArithmeticTarget.N8))
  -- AND
  | 0xA0 => some (some (Instruction.AND ArithmeticTarget.B))
  | 0xA1 => some (some (Instruction.AND ArithmeticTarget.C))
  | 0xA2 => some (some (Instruction.AND ArithmeticTarget.D))
  | 0xA3 => some (some (Instruction.AND ArithmeticTarget.E))
  | 0xA4 => some (some (Instruction.AND ArithmeticTarget.H))
  | 0xA5 => some (some (Instruction.AND ArithmeticTarget.L))
  | 0xA6 => some (some (Instruction.AND ArithmeticTarget.HL))
  | 0xA7 => some (some (Instruction.AND ArithmeticTarget.A))
  | 0xE6 => some (some (Instruction.AND ArithmeticTarget.N8))
  -- XOR
  | 0xA8 => some (some (Instruction.XOR ArithmeticTarget.B))
  | 0xA9 => some (some (Instruction.XOR ArithmeticTarget.C))
  | 0xAA => some (some (Instruction.XOR ArithmeticTarget.D))
  | 0xAB => some (some (Instruction.XOR ArithmeticTarget.E))
  | 0xAC => some (some (Instruction.XOR ArithmeticTarget.H))
  | 0xAD => some (some (Instruction.XOR ArithmeticTarget.L))
  | 0xAE => some (some (Instruction.XOR ArithmeticTarget.HL))
  | 0xAF => some (some (Instruction.XOR ArithmeticTarget.A))
  | 0xEE => some (some (Instruction.XOR ArithmeticTarget.N8))
  -- OR
  | 0xB0 => some (some (Instruction.OR ArithmeticTarget.B))
  | 0xB1 => some (some (Instruction.OR ArithmeticTarget.C))
  | 0xB2 => some (some (Instruction.OR ArithmeticTarget.D))
  | 0xB3 => some (some (Instruction.OR ArithmeticTarget.E))
  | 0xB4 => some (some (Instruction.OR ArithmeticTarget.H))
  | 0xB5 => some (some (Instruction.OR ArithmeticTarget.L))
  | 0xB6 => some (some (Instruction.OR ArithmeticTarget.HL))
  | 0xB7 => some (some (Instruction.OR ArithmeticTarget.A))
  | 0xF6 => some (some (Instruction.OR ArithmeticTarget.N8))
  -- CP
  | 0xB8 => some (some (Instruction.CP ArithmeticTarget.B))
  | 0xB9 => some (some (Instruction.CP ArithmeticTarget.C))
  | 0xBA => some (some (Instruction.CP ArithmeticTarget.D))
  | 0xBB => some (some (Instruction.CP ArithmeticTarget.E))
  | 0xBC => some (some (Instruction.CP ArithmeticTarget.H))
  | 0xBD => some (some (Instruction.CP ArithmeticTarget.L))
  | 0xBE => some (some (Instruction.CP ArithmeticTarget.HL))
  | 0xBF => some (some (Instruction.CP ArithmeticTarget.A))
  | 0xFE => some (some (Instruction.CP ArithmeticTarget.N8))
  -- POP
  | 0xC1 => some (some (Instruction.POP StackTarget.BC))
  | 0xD1 => some (some (Instruction.POP StackTarget.DE))
  | 0xE1 => some (some (Instruction.POP StackTarget.HL))
  | 0xF1 => some (some (Instruction.POP StackTarget.AF))
  -- PUSH
  | 0xC5 => some (some (Instruction.PUSH StackTarget.BC))
  | 0xD5 => some (some (Instruction.PUSH StackTarget.DE))
  | 0xE5 => some (some (Instruction.PUSH StackTarget.HL))
  | 0xF5 => some (some (Instruction.PUSH StackTarget.AF))
  -- catch-all arm: panic "Unknown instruction (exited from_byte_standard)"
  | _ => none

/-- `Instruction::from_byte_prefixed`: the match has no table entries, only
the panicking catch-all arm. -/
def Instruction.from_byte_prefixed (_byte : Nat) : Option (Option Instruction) :=
  none

/-- `Instruction::from_byte`. -/
def Instruction.from_byte (byte : Nat) (prefixed : Bool) : Option (Option Instruction) :=
  if prefixed then
    Instruction.from_byte_prefixed byte
  else
    Instruction.from_byte_standard byte

/-- cpu.rs `struct CPU`. -/
structure CPU where
  registers : Registers
  pc : Nat
  sp : Nat
  bus : MemoryBus

/-- `CPU::get_immediate_byte`: increments pc (wrapping) and returns the byte
at the new pc. -/
def CPU.get_immediate_byte (cpu : CPU) : Option (CPU × Nat) := do
  let cpu := { cpu with pc := (cpu.pc + 1) % 65536 }
  let value ← cpu.bus.read_byte cpu.pc
  pure (cpu, value)

/-- `CPU::get_immediate_word`: reads the word after the opcode, then advances
pc by 2 (wrapping). -/
def CPU.get_immediate_word (cpu : CPU) : Option (CPU × Nat) := do
  let value ← cpu.bus.read_word ((cpu.pc + 1) % 65536)
  pure ({ cpu with pc := (cpu.pc + 2) % 65536 }, value)

/-- `CPU::JP`: jump to the 16-bit address stored after the instruction, else
advance past the 3-byte instruction. -/
def CPU.JP (cpu : CPU) (should_jump : Bool) : Option Nat :=
  if should_jump then cpu.bus.read_word ((cpu.pc + 1) % 65536)
  else some ((cpu.pc + 3) % 65536)

/-- `CPU::JR`: when the condition holds, reads the byte after the instruction
as an `i8` (sign-extended) and returns `self.pc.wrapping_add_signed(offset)`,
i.e. pc plus the signed offset modulo 2^16; otherwise pc + 2. -/
def CPU.JR (cpu : CPU) (should_jump : Bool) : Option Nat :=
  if should_jump then do
    let offset ← cpu.bus.read_byte ((cpu.pc + 1) % 65536)
    -- `as i8` sign extension of the fetched byte
    let signed_offset : Int := if offset < 128 then (offset : Int) else (offset : Int) - 256
    pure (((cpu.pc : Int) + signed_offset).emod 65536).toNat
  else some ((cpu.pc + 2) % 65536)

/-- `CPU::PUSH`: decrement the stack pointer by 2 (wrapping) and write the
word there. -/
def CPU.PUSH (cpu : CPU) (value : Nat) : Option CPU := do
  let sp := (cpu.sp + 65534) % 65536
  let bus ← cpu.bus.write_word sp value
  pure { cpu with sp := sp, bus := bus }

/-- `CPU::POP`: read the word at the current stack pointer, then increment it
by 2 (wrapping). -/
def CPU.POP (cpu : CPU) : Option (CPU × Nat) := do
  let result ← cpu.bus.read_word cpu.sp
  pure ({ cpu with sp := (cpu.sp + 2) % 65536 }, result)

/-- `CPU::ADD`: 8-bit add into register A; flags are computed from the old A
(the assignment to A happens last in the Rust code). -/
def CPU.ADD (cpu : CPU) (value : Nat) : CPU × Nat :=
  let new_value := (cpu.registers.a + value) % 256
  let did_overflow := decide (255 < cpu.registers.a + value)
  let f : FlagsRegister :=
    { zero := decide (new_value = 0)
      subtract := false
      -- set half carry based on if lower nibbles added overflows to upper nibble
      half_carry := decide (0xF < (cpu.registers.a &&& 0xF) + (value &&& 0xF))
      carry := did_overflow }
  ({ cpu with registers := { cpu.registers with a := new_value, f := f } }, new_value)

/-- `CPU::ADDHL`: 16-bit add into the HL pair; the zero flag is deliberately
not touched. -/
def CPU.ADDHL (cpu : CPU) (value : Nat) : CPU × Nat :=
  let hl := cpu.registers.get_hl
  let new_value := (hl + value) % 65536
  let did_overflow := decide (65535 < hl + value)
  let f : FlagsRegister :=
    { zero := cpu.registers.f.zero
      subtract := false
      -- check for uppermost nibble carry (bit 11 -> 12)
      half_carry := decide (0xFFF < (hl &&& 0xFFF) + (value &&& 0xFFF))
      carry := did_overflow }
  ({ cpu with registers := ({ cpu.registers with f := f }).set_hl new_value }, new_value)

/-- `CPU::ADC`: add with carry-in; overflow of either addition sets carry. -/
def CPU.ADC (cpu : CPU) (value : Nat) : CPU × Nat :=
  let carry_in := if cpu.registers.f.carry then 1 else 0
  let intermediate := (cpu.registers.a + value) % 256
  let carry1 := decide (255 < cpu.registers.a + value)
  let new_value := (intermediate + carry_in) % 256
  let carry2 := decide (255 < intermediate + carry_in)
  let f : FlagsRegister :=
    { zero := decide (new_value = 0)
      subtract := false
      half_carry := decide (0xF < (cpu.registers.a &&& 0xF) + (value &&& 0xF) + carry_in)
      carry := carry1 || carry2 }
  ({ cpu with registers := { cpu.registers with a := new_value, f := f } }, new_value)

/-- `CPU::SUB`: wrapping subtraction from A; "overflow" is underflow. -/
def CPU.SUB (cpu : CPU) (value : Nat) : CPU × Nat :=
  let new_value := (cpu.registers.a + 256 - value % 256) % 256
  let did_overflow := decide (cpu.registers.a < value)
  let f : FlagsRegister :=
    { zero := decide (new_value = 0)
      subtract := true
      half_carry := decide ((cpu.registers.a &&& 0xF) < (value &&& 0xF))
      carry := did_overflow }
  ({ cpu with registers := { cpu.registers with a := new_value, f := f } }, new_value)

/-- `CPU::SBC`: subtract with borrow-in. -/
def CPU.SBC (cpu : CPU) (value : Nat) : CPU × Nat :=
  let carry_in := if cpu.registers.f.carry then 1 else 0
  let intermediate := (cpu.registers.a + 256 - value % 256) % 256
  let carry1 := decide (cpu.registers.a < value)
  let new_value := (intermediate + 256 - carry_in) % 256
  let carry2 := decide (intermediate < carry_in)
  let f : FlagsRegister :=
    { zero := decide (new_value = 0)
      subtract := true
      half_carry := decide ((cpu.registers.a &&& 0xF) < (value &&& 0xF) + carry_in)
      carry := carry1 || carry2 }
  ({ cpu with registers := { cpu.registers with a := new_value, f := f } }, new_value)

/-- `CPU::AND`: bitwise AND with A; half-carry is unconditionally true. -/
def CPU.AND (cpu : CPU) (value : Nat) : CPU × Nat :=
  let new_value := cpu.registers.a &&& value
  let f : FlagsRegister :=
    { zero := decide (new_value = 0)
      subtract := false
      half_carry := true
      carry := false }
  ({ cpu with registers := { cpu.registers with a := new_value, f := f } }, new_value)

/-- `CPU::OR`. -/
def CPU.OR (cpu : CPU) (value : Nat) : CPU × Nat :=
  let new_value := cpu.registers.a ||| value
  let f : FlagsRegister :=
    { zero := decide (new_value = 0)
      subtract := false
      half_carry := false
      carry := false }
  ({ cpu with registers := { cpu.registers with a := new_value, f := f } }, new_value)

/-- `CPU::XOR`. -/
def CPU.XOR (cpu : CPU) (value : Nat) : CPU × Nat :=
  let new_value := cpu.registers.a ^^^ value
  let f : FlagsRegister :=
    { zero := decide (new_value = 0)
      subtract := false
      half_carry := false
      carry := false }
  ({ cpu with registers := { cpu.registers with a := new_value, f := f } }, new_value)

/-- `CPU::CP`: sets flags like SUB but does not store the result in A. -/
def CPU.CP (cpu : CPU) (value : Nat) : CPU :=
  let new_value := (cpu.registers.a + 256 - value % 256) % 256
  let did_overflow := decide (cpu.registers.a < value)
  let f : FlagsRegister :=
    { zero := decide (new_value = 0)
      subtract := true
      half_carry := decide ((cpu.registers.a &&& 0xF) < (value &&& 0xF))
      carry := did_overflow }
  { cpu with registers := { cpu.registers with f := f } }

/-- `CPU::INC`: 8-bit wrapping increment of the given value; the carry flag is
not touched. -/
def CPU.INC (cpu : CPU) (value : Nat) : CPU × Nat :=
  let new_value := (value + 1) % 256
  let f : FlagsRegister :=
    { zero := decide (new_value = 0)
      subtract := false
      half_carry := decide ((value &&& 0xF) = 0xF)
      -- don't touch carry flag in INC or DEC
      carry := cpu.registers.f.carry }
  ({ cpu with registers := { cpu.registers with f := f } }, new_value)

/-- `CPU::DEC`: 8-bit wrapping decrement; the carry flag is not touched. -/
def CPU.DEC (cpu : CPU) (value : Nat) : CPU × Nat :=
  let new_value := (value + 255) % 256
  let f : FlagsRegister :=
    { zero := decide (new_value = 0)
      subtract := true
      half_carry := decide ((value &&& 0xF) = 0)
      -- don't touch carry flag in INC or DEC
      carry := cpu.registers.f.carry }
  ({ cpu with registers := { cpu.registers with f := f } }, new_value)

/-- `CPU::RLCA`: rotate A left circularly; carry takes the old msb; the zero
flag is not touched. -/
def CPU.RLCA (cpu : CPU) : CPU :=
  let old_a := cpu.registers.a
  let old_msb := if old_a &&& 0x80 != 0 then 0x01 else 0
  let new_value := ((old_a <<< 1) % 256) ||| old_msb
  let f : FlagsRegister :=
    { zero := cpu.registers.f.zero
      subtract := false
      half_carry := false
      carry := old_msb != 0 }
  { cpu with registers := { cpu.registers with a := new_value, f := f } }

/-- `CPU::RRCA`: rotate A right circularly; carry takes the old lsb. -/
def CPU.RRCA (cpu : CPU) : CPU :=
  let old_a := cpu.registers.a
  let old_lsb := if old_a &&& 0x01 != 0 then 0x80 else 0
  let new_value := (old_a >>> 1) ||| old_lsb
  let f : FlagsRegister :=
    { zero := cpu.registers.f.zero
      subtract := false
      half_carry := false
      carry := old_lsb != 0 }
  { cpu with registers := { cpu.registers with a := new_value, f := f } }

/-- `CPU::RLA`: rotate A left through the carry flag. -/
def CPU.RLA (cpu : CPU) : CPU :=
  let old_a := cpu.registers.a
  let carry_in := if cpu.registers.f.carry then 0x01 else 0
  let new_value := ((old_a <<< 1) % 256) ||| carry_in
  let f : FlagsRegister :=
    { zero := cpu.registers.f.zero
      subtract := false
      half_carry := false
      carry := old_a &&& 0x80 != 0 }
  { cpu with registers := { cpu.registers with a := new_value, f := f } }

/-- `CPU::RRA`: rotate A right through the carry flag. -/
def CPU.RRA (cpu : CPU) : CPU :=
  let old_a := cpu.registers.a
  let carry_in := if cpu.registers.f.carry then 0x80 else 0
  let new_value := (old_a >>> 1) ||| carry_in
  let f : FlagsRegister :=
    { zero := cpu.registers.f.zero
      subtract := false
      half_carry := false
      carry := old_a &&& 0x1 != 0 }
  { cpu with registers := { cpu.registers with a := new_value, f := f } }

/-- `CPU::CPL`: toggle every bit in A; zero and carry are not touched. -/
def CPU.CPL (cpu : CPU) : CPU :=
  let new_a := cpu.registers.a ^^^ 0xFF
  let f := { cpu.registers.f with subtract := true, half_carry := true }
  { cpu with registers := { cpu.registers with a := new_a, f := f } }

/-- `CPU::SCF`: set carry; zero is not touched. -/
def CPU.SCF (cpu : CPU) : CPU :=
  let f := { cpu.registers.f with carry := true, subtract := false, half_carry := false }
  { cpu with registers := { cpu.registers with f := f } }

/-- `CPU::CCF`: toggle carry; zero is not touched. -/
def CPU.CCF (cpu : CPU) : CPU :=
  let f := { cpu.registers.f with carry := !cpu.registers.f.carry, subtract := false, half_carry := false }
  { cpu with registers := { cpu.registers with f := f } }

/-- `CPU::BIT`: test whether the indexed bit is set; only flags change and the
carry flag is not touched. -/
def CPU.BIT (cpu : CPU) (bit : Nat) (r : Nat) : CPU :=
  let bit_set := r &&& (1 <<< bit) != 0
  { cpu with registers := { cpu.registers with f :=
      { zero := !bit_set
        subtract := false
        half_carry := true
        carry := cpu.registers.f.carry } } }

/-- `CPU::RES`: reset the indexed bit to 0 (`r & !(1 << bit)` on `u8`); no
flags are touched. -/
def CPU.RES (_cpu : CPU) (bit : Nat) (r : Nat) : Nat :=
  r &&& (255 ^^^ (1 <<< bit))

/-- `CPU::SET`: set the indexed bit to 1; no flags are touched. -/
def CPU.SET (_cpu : CPU) (bit : Nat) (r : Nat) : Nat :=
  r ||| (1 <<< bit)

/-- Operand fetch shared verbatim by the ADD/ADC/SUB/SBC/AND/OR/XOR/CP arms of
`CPU::execute`: each of those arms matches the target over the registers, the
byte at HL, or the immediate byte, and panics on the remaining targets. -/
def CPU.fetch_arith_value (cpu : CPU) : ArithmeticTarget → Option (CPU × Nat)
  | ArithmeticTarget.B => some (cpu, cpu.registers.b)
  | ArithmeticTarget.C => some (cpu, cpu.registers.c)
  | ArithmeticTarget.D => some (cpu, cpu.registers.d)
  | ArithmeticTarget.E => some (cpu, cpu.registers.e)
  | ArithmeticTarget.H => some (cpu, cpu.registers.h)
  | ArithmeticTarget.L => some (cpu, cpu.registers.l)
  | ArithmeticTarget.HL => do
      let value ← cpu.bus.read_byte cpu.registers.get_hl
      pure (cpu, value)
  | ArithmeticTarget.A => some (cpu, cpu.registers.a)
  | ArithmeticTarget.N8 => cpu.get_immediate_byte
  -- panic "Incompatible ArithmeticTarget"
  | _ => none

/-- `CPU::execute`: consumes a decoded instruction, mutates the state and
returns the next program counter; `none` models the per-arm `panic!` calls on
incompatible operands. -/
def CPU.execute (cpu : CPU) : Instruction → Option (CPU × Nat)
  | Instruction.JP test =>
      let jump_condition :=
        match test with
        | JumpTest.NotZero => !cpu.registers.f.zero
        | JumpTest.Zero => cpu.registers.f.zero
        | JumpTest.NotCarry => !cpu.registers.f.carry
        | JumpTest.Carry => cpu.registers.f.carry
        | JumpTest.Always => true
      (cpu.JP jump_condition).map (fun next_pc => (cpu, next_pc))
  | Instruction.JR test =>
      let jump_condition :=
        match test with
        | JumpTest.NotZero => !cpu.registers.f.zero
        | JumpTest.Zero => cpu.registers.f.zero
        | JumpTest.NotCarry => !cpu.registers.f.carry
        | JumpTest.Carry => cpu.registers.f.carry
        | JumpTest.Always => true
      (cpu.JR jump_condition).map (fun next_pc => (cpu, next_pc))
  | Instruction.JPHL =>
      -- jump straight to address in HL
      some (cpu, cpu.registers.get_hl)
  | Instruction.LD load_type =>
      match load_type with
      | LoadType.Byte target source => do
          let (cpu, source_value) ←
            match source with
            | LoadByteSource.A => some (cpu, cpu.registers.a)
            | LoadByteSource.B => some (cpu, cpu.registers.b)
            | LoadByteSource.C => some (cpu, cpu.registers.c)
            | LoadByteSource.D => some (cpu, cpu.registers.d)
            | LoadByteSource.E => some (cpu, cpu.registers.e)
            | LoadByteSource.H => some (cpu, cpu.registers.h)
            | LoadByteSource.L => some (cpu, cpu.registers.l)
            | LoadByteSource.BC => do
                let v ← cpu.bus.read_byte cpu.registers.get_bc
                pure (cpu, v)
            | LoadByteSource.DE => do
                let v ← cpu.bus.read_byte cpu.registers.get_de
                pure (cpu, v)
            | LoadByteSource.HL => do
                let v ← cpu.bus.read_byte cpu.registers.get_hl
                pure (cpu, v)
            | LoadByteSource.N8 => cpu.get_immediate_byte
          let cpu ←
            match target with
            | LoadByteTarget.A => some { cpu with registers := { cpu.registers with a := source_value } }
            | LoadByteTarget.B => some { cpu with registers := { cpu.registers with b := source_value } }
            | LoadByteTarget.C => some { cpu with registers := { cpu.registers with c := source_value } }
            | LoadByteTarget.D => some { cpu with registers := { cpu.registers with d := source_value } }
            | LoadByteTarget.E => some { cpu with registers := { cpu.registers with e := source_value } }
            | LoadByteTarget.H => some { cpu with registers := { cpu.registers with h := source_value } }
            | LoadByteTarget.L => some { cpu with registers := { cpu.registers with l := source_value } }
            | LoadByteTarget.BC => do
                let bus ← cpu.bus.write_byte cpu.registers.get_bc source_value
                pure { cpu with bus := bus }
            | LoadByteTarget.DE => do
                let bus ← cpu.bus.write_byte cpu.registers.get_de source_value
                pure { cpu with bus := bus }
            | LoadByteTarget.HL => do
                let bus ← cpu.bus.write_byte cpu.registers.get_hl source_value
                pure { cpu with bus := bus }
          pure (cpu, (cpu.pc + 1) % 65536)
      | LoadType.Word target source => do
          let (cpu, source_value) ←
            match source with
            | LoadWordSource.N16 => cpu.get_immediate_word
            | LoadWordSource.SP => some (cpu, cpu.sp)
          let cpu ←
            match target with
            | LoadWordTarget.BC => some { cpu with registers := cpu.registers.set_bc source_value }
            | LoadWordTarget.DE => some { cpu with registers := cpu.registers.set_de source_value }
            | LoadWordTarget.HL => some { cpu with registers := cpu.registers.set_hl source_value }
            | LoadWordTarget.SP => some { cpu with sp := source_value }
            | LoadWordTarget.A16 => do
                let (cpu, address) ← cpu.get_immediate_word
                let bus ← cpu.bus.write_word address source_value
                pure { cpu with bus := bus }
          -- increments from immediate values / addresses are handled in get_immediate_word
          pure (cpu, (cpu.pc + 1) % 65536)
      | LoadType.AddressIncDec target source mode => do
          let hl := cpu.registers.get_hl
          let cpu ←
            match target, source with
            | LoadIncDecTarget.A, LoadIncDecSource.HL => do
                let v ← cpu.bus.read_byte hl
                pure { cpu with registers := { cpu.registers with a := v } }
            | LoadIncDecTarget.HL, LoadIncDecSource.A => do
                let bus ← cpu.bus.write_byte hl cpu.registers.a
                pure { cpu with bus := bus }
            -- panic "Invalid AddressIncDec inputs"
            | _, _ => none
          let new_hl :=
            match mode with
            | AddressMode.Inc => (hl + 1) % 65536
            | AddressMode.Dec => (hl + 65535) % 65536
          pure ({ cpu with registers := cpu.registers.set_hl new_hl }, (cpu.pc + 1) % 65536)
  | Instruction.PUSH target => do
      let value :=
        match target with
        | StackTarget.BC => cpu.registers.get_bc
        | StackTarget.DE => cpu.registers.get_de
        | StackTarget.HL => cpu.registers.get_hl
        | StackTarget.AF => cpu.registers.get_af
      let cpu ← cpu.PUSH value
      pure (cpu, (cpu.pc + 1) % 65536)
  | Instruction.POP target => do
      let (cpu, value) ← cpu.POP
      let cpu :=
        match target with
        | StackTarget.BC => { cpu with registers := cpu.registers.set_bc value }
        | StackTarget.DE => { cpu with registers := cpu.registers.set_de value }
        | StackTarget.HL => { cpu with registers := cpu.registers.set_hl value }
        | StackTarget.AF => { cpu with registers := cpu.registers.set_af value }
      pure (cpu, (cpu.pc + 1) % 65536)
  | Instruction.ADD target => do
      let (cpu, value) ← cpu.fetch_arith_value target
      let cpu := (cpu.ADD value).1
      pure (cpu, (cpu.pc + 1) % 65536)
  | Instruction.ADDHL target => do
      let value ←
        match target with
        | ArithmeticTarget.BC => some cpu.registers.get_bc
        | ArithmeticTarget.DE => some cpu.registers.get_de
        | ArithmeticTarget.HL => some cpu.registers.get_hl
        | ArithmeticTarget.SP => some cpu.sp
        -- panic "Incompatible ArithmeticTarget for ADDHL"
        | _ => none
      let cpu := (cpu.ADDHL value).1
      pure (cpu, (cpu.pc + 1) % 65536)
  | Instruction.ADC target => do
      let (cpu, value) ← cpu.fetch_arith_value target
      let cpu := (cpu.ADC value).1
      pure (cpu, (cpu.pc + 1) % 65536)
  | Instruction.SUB target => do
      let (cpu, value) ← cpu.fetch_arith_value target
      let cpu := (cpu.SUB value).1
      pure (cpu, (cpu.pc + 1) % 65536)
  | Instruction.SBC target => do
      let (cpu, value) ← cpu.fetch_arith_value target
      let cpu := (cpu.SBC value).1
      pure (cpu, (cpu.pc + 1) % 65536)
  | Instruction.AND target => do
      let (cpu, value) ← cpu.fetch_arith_value target
      let cpu := (cpu.AND value).1
      pure (cpu, (cpu.pc + 1) % 65536)
  | Instruction.OR target => do
      let (cpu, value) ← cpu.fetch_arith_value target
      let cpu := (cpu.OR value).1
      pure (cpu, (cpu.pc + 1) % 65536)
  | Instruction.XOR target => do
      let (cpu, value) ← cpu.fetch_arith_value target
      let cpu := (cpu.XOR value).1
      pure (cpu, (cpu.pc + 1) % 65536)
  | Instruction.CP target => do
      let (cpu, value) ← cpu.fetch_arith_value target
      let cpu := cpu.CP value
      pure (cpu, (cpu.pc + 1) % 65536)
  | Instruction.INC target => do
      let cpu ←
        match target with
        | ArithmeticTarget.B =>
            let r := cpu.INC cpu.registers.b
            some { r.1 with registers := { r.1.registers with b := r.2 } }
        | ArithmeticTarget.C =>
            let r := cpu.INC cpu.registers.c
            some { r.1 with registers := { r.1.registers with c := r.2 } }
        | ArithmeticTarget.D =>
            let r := cpu.INC cpu.registers.d
            some { r.1 with registers := { r.1.registers with d := r.2 } }
        | ArithmeticTarget.E =>
            let r := cpu.INC cpu.registers.e
            some { r.1 with registers := { r.1.registers with e := r.2 } }
        | ArithmeticTarget.H =>
            let r := cpu.INC cpu.registers.h
            some { r.1 with registers := { r.1.registers with h := r.2 } }
        | ArithmeticTarget.L =>
            let r := cpu.INC cpu.registers.l
            some { r.1 with registers := { r.1.registers with l := r.2 } }
        | ArithmeticTarget.HL => do
            let hl := cpu.registers.get_hl
            let value ← cpu.bus.read_byte hl
            let r := cpu.INC value
            let bus ← r.1.bus.write_byte hl r.2
            pure { r.1 with bus := bus }
        | ArithmeticTarget.A =>
            let r := cpu.INC cpu.registers.a
            some { r.1 with registers := { r.1.registers with a := r.2 } }
        -- panic "Incompatible ArithmeticTarget for INC"
        | _ => none
      pure (cpu, (cpu.pc + 1) % 65536)
  | Instruction.DEC target => do
      let cpu ←
        match target with
        | ArithmeticTarget.B =>
            let r := cpu.DEC cpu.registers.b
            some { r.1 with registers := { r.1.registers with b := r.2 } }
        | ArithmeticTarget.C =>
            let r := cpu.DEC cpu.registers.c
            some { r.1 with registers := { r.1.registers with c := r.2 } }
        | ArithmeticTarget.D =>
            let r := cpu.DEC cpu.registers.d
            some { r.1 with registers := { r.1.registers with d := r.2 } }
        | ArithmeticTarget.E =>
            let r := cpu.DEC cpu.registers.e
            some { r.1 with registers := { r.1.registers with e := r.2 } }
        | ArithmeticTarget.H =>
            let r := cpu.DEC cpu.registers.h
            some { r.1 with registers := { r.1.registers with h := r.2 } }
        | ArithmeticTarget.L =>
            let r := cpu.DEC cpu.registers.l
            some { r.1 with registers := { r.1.registers with l := r.2 } }
        | ArithmeticTarget.HL => do
            let hl := cpu.registers.get_hl
            let value ← cpu.bus.read_byte hl
            let r := cpu.DEC value
            let bus ← r.1.bus.write_byte hl r.2
            pure { r.1 with bus := bus }
        | ArithmeticTarget.A =>
            let r := cpu.DEC cpu.registers.a
            some { r.1 with registers := { r.1.registers with a := r.2 } }
        -- panic "Incompatible ArithmeticTarget for DEC"
        | _ => none
      pure (cpu, (cpu.pc + 1) % 65536)
  -- Same as INC and DEC but for 16 bit regs and doesn't touch any flags
  | Instruction.INC16 target => do
      let cpu ←
        match target with
        | ArithmeticTarget.BC => some { cpu with registers := cpu.registers.set_bc ((cpu.registers.get_bc + 1) % 65536) }
        | ArithmeticTarget.DE => some { cpu with registers := cpu.registers.set_de ((cpu.registers.get_de + 1) % 65536) }
        | ArithmeticTarget.HL => some { cpu with registers := cpu.registers.set_hl ((cpu.registers.get_hl + 1) % 65536) }
        | ArithmeticTarget.SP => some { cpu with sp := (cpu.sp + 1) % 65536 }
        | _ => none
      pure (cpu, (cpu.pc + 1) % 65536)
  | Instruction.DEC16 target => do
      let cpu ←
        match target with
        | ArithmeticTarget.BC => some { cpu with registers := cpu.registers.set_bc ((cpu.registers.get_bc + 65535) % 65536) }
        | ArithmeticTarget.DE => some { cpu with registers := cpu.registers.set_de ((cpu.registers.get_de + 65535) % 65536) }
        | ArithmeticTarget.HL => some { cpu with registers := cpu.registers.set_hl ((cpu.registers.get_hl + 65535) % 65536) }
        | ArithmeticTarget.SP => some { cpu with sp := (cpu.sp + 65535) % 65536 }
        | _ => none
      pure (cpu, (cpu.pc + 1) % 65536)
  | Instruction.RLCA => some (cpu.RLCA, (cpu.pc + 1) % 65536)
  | Instruction.RRCA => some (cpu.RRCA, (cpu.pc + 1) % 65536)
  | Instruction.RLA => some (cpu.RLA, (cpu.pc + 1) % 65536)
  | Instruction.RRA => some (cpu.RRA, (cpu.pc + 1) % 65536)
  | Instruction.CPL => some (cpu.CPL, (cpu.pc + 1) % 65536)
  | Instruction.SCF => some (cpu.SCF, (cpu.pc + 1) % 65536)
  | Instruction.CCF => some (cpu.CCF, (cpu.pc + 1) % 65536)
  -- PREFIXED INSTRUCTIONS
  | Instruction.BIT bit target => do
      let cpu ←
        match target with
        | ArithmeticTarget.B => some (cpu.BIT bit cpu.registers.b)
        | ArithmeticTarget.C => some (cpu.BIT bit cpu.registers.c)
        | ArithmeticTarget.D => some (cpu.BIT bit cpu.registers.d)
        | ArithmeticTarget.E => some (cpu.BIT bit cpu.registers.e)
        | ArithmeticTarget.H => some (cpu.BIT bit cpu.registers.h)
        | ArithmeticTarget.L => some (cpu.BIT bit cpu.registers.l)
        | ArithmeticTarget.HL => do
            let r ← cpu.bus.read_byte cpu.registers.get_hl
            pure (cpu.BIT bit r)
        | ArithmeticTarget.A => some (cpu.BIT bit cpu.registers.a)
        -- panic "Incompatible ArithmeticTarget for BIT"
        | _ => none
      pure (cpu, (cpu.pc + 2) % 65536)
  | Instruction.RES bit target => do
      let cpu ←
        match target with
        | ArithmeticTarget.B => some { cpu with registers := { cpu.registers with b := cpu.RES bit cpu.registers.b } }
        | ArithmeticTarget.C => some { cpu with registers := { cpu.registers with c := cpu.RES bit cpu.registers.c } }
        | ArithmeticTarget.D => some { cpu with registers := { cpu.registers with d := cpu.RES bit cpu.registers.d } }
        | ArithmeticTarget.E => some { cpu with registers := { cpu.registers with e := cpu.RES bit cpu.registers.e } }
        | ArithmeticTarget.H => some { cpu with registers := { cpu.registers with h := cpu.RES bit cpu.registers.h } }
        | ArithmeticTarget.L => some { cpu with registers := { cpu.registers with l := cpu.RES bit cpu.registers.l } }
        | ArithmeticTarget.HL => do
            let hl := cpu.registers.get_hl
            let r ← cpu.bus.read_byte hl
            let bus ← cpu.bus.write_byte hl (cpu.RES bit r)
            pure { cpu with bus := bus }
        | ArithmeticTarget.A => some { cpu with registers := { cpu.registers with a := cpu.RES bit cpu.registers.a } }
        | _ => none
      pure (cpu, (cpu.pc + 2) % 65536)
  | Instruction.SET bit target => do
      let cpu ←
        match target with
        | ArithmeticTarget.B => some { cpu with registers := { cpu.registers with b := cpu.SET bit cpu.registers.b } }
        | ArithmeticTarget.C => some { cpu with registers := { cpu.registers with c := cpu.SET bit cpu.registers.c } }
        | ArithmeticTarget.D => some { cpu with registers := { cpu.registers with d := cpu.SET bit cpu.registers.d } }
        | ArithmeticTarget.E => some { cpu with registers := { cpu.registers with e := cpu.SET bit cpu.registers.e } }
        | ArithmeticTarget.H => some { cpu with registers := { cpu.registers with h := cpu.SET bit cpu.registers.h } }
        | ArithmeticTarget.L => some { cpu with registers := { cpu.registers with l := cpu.SET bit cpu.registers.l } }
        | ArithmeticTarget.HL => do
            let hl := cpu.registers.get_hl
            let r ← cpu.bus.read_byte hl
            let bus ← cpu.bus.write_byte hl (cpu.SET bit r)
            pure { cpu with bus := bus }
        | ArithmeticTarget.A => some { cpu with registers := { cpu.registers with a := cpu.SET bit cpu.registers.a } }
        | _ => none
      pure (cpu, (cpu.pc + 2) % 65536)

/-- `CPU::step`: fetch, decode, execute, store the next pc.  The `else` branch
of the decode match is a `panic!`, modelled by `none`. -/
def CPU.step (cpu : CPU) : Option CPU := do
  let instruction_byte ← cpu.bus.read_byte cpu.pc
  let prefixed := instruction_byte == 0xCB
  let instruction_byte ←
    if prefixed then cpu.bus.read_byte ((cpu.pc + 1) % 65536) else pure instruction_byte
  let decoded ← Instruction.from_byte instruction_byte prefixed
  match decoded with
  | some instruction => do
      let (cpu, next_pc) ← cpu.execute instruction
      pure { cpu with pc := next_pc }
  -- panic "Unkown instruction found"
  | none => none

/-- gpu.rs `VRAM_BEGIN`. -/
def VRAM_BEGIN : Nat := 0x8000

/-- gpu.rs `VRAM_END`. -/
def VRAM_END : Nat := 0x9FFF

/-- gpu.rs `VRAM_SIZE = VRAM_END - VRAM_BEGIN + 1`. -/
def VRAM_SIZE : Nat := VRAM_END - VRAM_BEGIN + 1

/-- gpu.rs `TILE_DATA_SIZE`. -/
def TILE_DATA_SIZE : Nat := 0x1800

/-- gpu.rs `enum TilePixelValue`. -/
inductive TilePixelValue
  | Zero
  | One
  | Two
  | Three
deriving DecidableEq

/-- Numeric reading of a pixel value, `Zero` through `Three` as 0 through 3
(the 2-bit value the spec's pixel table talks about). -/
def TilePixelValue.toNat : TilePixelValue → Nat
  | TilePixelValue.Zero => 0
  | TilePixelValue.One => 1
  | TilePixelValue.Two => 2
  | TilePixelValue.Three => 3

/-- gpu.rs `struct GPU`: the vram array (`[u8; VRAM_SIZE]`) as a function from
index to stored byte, and the tile set (`[Tile; 384]`, each tile an 8x8 pixel
grid) as a curried function tile -> row -> pixel. -/
structure GPU where
  vram : Nat → Nat
  tile_set : Nat → Nat → Nat → TilePixelValue

/-- `GPU::read_vram`: `self.vram[address]`, panicking (none) out of bounds. -/
def GPU.read_vram (gpu : GPU) (address : Nat) : Option Nat :=
  if address < VRAM_SIZE then some (gpu.vram address % 256) else none

/-- `GPU::write_vram`: store the byte (panicking out of bounds like the Rust
indexing), return early for indices at or past the tile-data region, otherwise
re-derive the 8 pixels of the affected tile row from the two row bytes.  The
`for pixel_index in 0..8` loop is a fold over `List.range 8`. -/
def GPU.write_vram (gpu : GPU) (index : Nat) (value : Nat) : Option GPU :=
  if index < VRAM_SIZE then
    let gpu := { gpu with vram := fun i => if i = index then value % 256 else gpu.vram i }
    -- check bounds for tile decoding
    if TILE_DATA_SIZE ≤ index then some gpu
    else
      -- normalize index by setting lsb to 0
      let index := index &&& 0xFFFE
      let byte1 := gpu.vram index
      let byte2 := gpu.vram (index + 1)
      -- entire tile is 8 rows, therefore 16 bytes
      let tile_index := index / 16
      -- since every 2 bytes is a new row
      let row_index := (index % 16) / 2
      let new_tile_set :=
        (List.range 8).foldl (fun ts pixel_index =>
          let mask := 1 <<< (7 - pixel_index)
          let lsb := byte1 &&& mask
          let msb := byte2 &&& mask
          let value :=
            match msb != 0, lsb != 0 with
            | true, true => TilePixelValue.Three
            | true, false => TilePixelValue.Two
            | false, true => TilePixelValue.One
            | false, false => TilePixelValue.Zero
          fun t r p =>
            if t = tile_index ∧ r = row_index ∧ p = pixel_index then value else ts t r p)
          gpu.tile_set
      some { gpu with tile_set := new_tile_set }
  else none

/-! ### Bridging lemmas between the bit-level operations and arithmetic -/

/-- Masking with 0xFF is reduction mod 256. -/
theorem and_255_eq_mod (x : Nat) : x &&& 255 = x % 256 := by
  have h := Nat.and_pow_two_sub_one_eq_mod x 8
  norm_num at h
  exact h

/-- The high-byte extraction used by `write_word` and the pair setters:
`(x & 0xFF00) >> 8` is `x / 256 % 256`. -/
theorem and_ff00_shiftRight_eq (x : Nat) : (x &&& 0xFF00) >>> 8 = x / 256 % 256 := by
  have hdiv : x / 256 = x >>> 8 := by
    rw [Nat.shiftRight_eq_div_pow]
  have hmask : (0xFF00 : Nat) = 255 <<< 8 := by
    simp [Nat.shiftLeft_eq]
  have h256 : (256 : Nat) = 2 ^ 8 := by norm_num
  have h255 : (255 : Nat) = 2 ^ 8 - 1 := by norm_num
  apply Nat.eq_of_testBit_eq
  intro i
  rw [hdiv, h256, Nat.testBit_mod_two_pow, Nat.testBit_shiftRight, Nat.testBit_shiftRight,
    Nat.testBit_and, hmask, Nat.testBit_shiftLeft, h255, Nat.testBit_two_pow_sub_one]
  have e1 : 8 + i - 8 = i := by omega
  rw [e1]
  simp [Nat.le_add_right, Bool.and_comm]

/-- Recombining a high byte and a low byte: for `lo < 256`,
`(hi <<< 8) ||| lo = 256 * hi + lo`. -/
theorem shiftLeft_or_eq_add (hi lo : Nat) (h : lo < 256) :
    (hi <<< 8) ||| lo = 256 * hi + lo := by
  rw [Nat.shiftLeft_eq, Nat.mul_comm hi,
    ← Nat.mul_add_lt_is_or (show lo < 2 ^ 8 by omega) hi]

/-- Round trip of the byte decomposition used by `write_word`, `set_bc`,
`set_de`, `set_hl` and `set_af`: re-assembling the two extracted bytes gives
back any 16-bit value. -/
theorem word_bytes_roundtrip (v : Nat) (hv : v < 65536) :
    (((v &&& 0xFF00) >>> 8) <<< 8) ||| (v &&& 0xFF) = v := by
  rw [and_ff00_shiftRight_eq, and_255_eq_mod,
    shiftLeft_or_eq_add _ _ (Nat.mod_lt _ (by norm_num))]
  omega

/-- A single-bit mask test is `testBit`: `x &&& (1 <<< i) = 0` exactly when
bit `i` of `x` is clear. -/
theorem and_one_shiftLeft_eq_zero (x i : Nat) :
    (x &&& (1 <<< i) = 0) ↔ x.testBit i = false := by
  rw [Nat.one_shiftLeft]
  constructor
  · intro h
    have := congrArg (fun n => n.testBit i) h
    simpa [Nat.testBit_and, Nat.testBit_two_pow] using this
  · intro h
    apply Nat.eq_of_testBit_eq
    intro j
    rw [Nat.testBit_and, Nat.testBit_two_pow]
    by_cases hij : i = j
    · subst hij
      simp [h]
    · simp [hij]

/-- Bool version of the single-bit mask test, in the shape the tile decoder
and `BIT` use it. -/
theorem and_one_shiftLeft_bne (x i : Nat) : (x &&& (1 <<< i) != 0) = x.testBit i := by
  cases h : x.testBit i
  · have h0 := (and_one_shiftLeft_eq_zero x i).2 h
    simp [h0]
  · have h0 : ¬(x &&& (1 <<< i) = 0) := fun hc => by
      rw [(and_one_shiftLeft_eq_zero x i).1 hc] at h
      cases h
    simp [h0]

/-! ### Concrete machine states used by witnesses and counterexamples -/

/-- All-zero register file. -/
def regs0 : Registers := ⟨0, 0, 0, 0, 0, ⟨false, false, false, false⟩, 0, 0⟩

/-- All-zero memory. -/
def bus0 : MemoryBus := ⟨fun _ => 0⟩

/-- A quiescent CPU state. -/
def cpu0 : CPU := ⟨regs0, 0, 0, bus0⟩

/-- CPU about to execute a relative jump at pc = 0x1000 with offset byte 5 at
pc + 1. -/
def jr_cpu : CPU := ⟨regs0, 0x1000, 0, ⟨fun i => if i = 0x1001 then 5 else 0⟩⟩

/-- CPU whose memory is filled with the unknown opcode byte 0xD3. -/
def cpuD3 : CPU := ⟨regs0, 0, 0, ⟨fun _ => 0xD3⟩⟩

/-- CPU whose memory is filled with the unknown opcode byte 0x01. -/
def cpu01 : CPU := ⟨regs0, 0, 0, ⟨fun _ => 0x01⟩⟩

/-- CPU with register A = 200, for exercising ADD. -/
def cpu_add : CPU := ⟨⟨200, 0, 0, 0, 0, ⟨false, false, false, false⟩, 0, 0⟩, 0, 0, bus0⟩

/-! ### The claims -/

/-- C1: for every program counter p, signed offset o at p+1 and flag state, a
taken JR is claimed to set the next pc to p + 2 + o (sign-extended, modular
2^16), an untaken one to p + 2.  The code's taken branch instead returns
p + o: at pc = 0x1000 with offset byte 5 and an always-true condition the
execute arm for JR produces next pc 0x1005, not the claimed
(0x1000 + 2 + 5) % 2^16 = 0x1007; the untaken branch does return pc + 2. -/
theorem C1_JR_taken_misses_base :
    (jr_cpu.execute (Instruction.JR JumpTest.Always)).map Prod.snd = some 0x1005 ∧
    (jr_cpu.execute (Instruction.JR JumpTest.Zero)).map Prod.snd = some ((0x1000 + 2) % 65536) ∧
    (0x1005 : Nat) ≠ (0x1000 + 2 + 5) % 65536 := by
  refine ⟨by decide, by decide, by decide⟩

/-- C2 counterexample: the byte 0xD3 has no entry in the standard opcode
table; decoding it hits the panicking catch-all (`none`), not a recoverable
`None` return, and `step` on a machine whose next opcode byte is 0xD3
likewise fails unrecoverably instead of propagating a typed result. -/
theorem C2_decode_counterexample :
    Instruction.from_byte_standard 0xD3 = none ∧ cpuD3.step.isNone = true := by
  refine ⟨by decide, by decide⟩

/-- C2 (amended): the extended ("prefixed") table panics on every byte, and
whenever the fetched non-prefix opcode byte has no standard-table entry (its
decode hits the panicking catch-all, `none`), `step` fails unrecoverably
(`none`) rather than returning a typed recoverable result to the caller. -/
theorem C2_decode_panics (b : Nat) :
    Instruction.from_byte_prefixed b = none ∧
    (∀ cpu : CPU, cpu.bus.read_byte cpu.pc = some b → (b == 0xCB) = false →
      Instruction.from_byte_standard b = none → cpu.step = none) := by
  refine ⟨rfl, ?_⟩
  intro cpu hread hcb hdec
  have hne : b ≠ 203 := by simpa using hcb
  unfold CPU.step
  rw [hread]
  simp [hne, Instruction.from_byte, hdec]

/-- C2 witness: the amended claim at the unknown opcode byte 0x01. -/
theorem C2_decode_panics_witness :
    Instruction.from_byte_prefixed 0x01 = none ∧ cpu01.step = none :=
  ⟨(C2_decode_panics 0x01).1,
   (C2_decode_panics 0x01).2 cpu01 (by decide) (by decide) (by decide)⟩

/-- C3: the claim says every address 0 through 65535 can be read and written
because the backing array spans the full 16-bit range.  The array is
`[u8; 0xFFFF]` — 65535 entries — so address 0xFFFF faults: `read_byte` and
`write_byte` at 0xFFFF fail, and so does any word access whose pair of
addresses touches 0xFFFF, while 0xFFFE still succeeds. -/
theorem C3_memory_array_off_by_one :
    bus0.read_byte 0xFFFE = some 0 ∧
    bus0.read_byte 0xFFFF = none ∧
    (bus0.write_byte 0xFFFF 0).isNone = true ∧
    bus0.read_word 0xFFFE = none ∧
    (bus0.write_word 0xFFFE 0xABCD).isNone = true := by
  refine ⟨by decide, by decide, by decide, by decide, by decide⟩

/-- C4: for all 8-bit a (register A) and b (operand), after ADD the zero flag
holds iff (a+b) mod 256 = 0, half-carry iff (a & 0xF) + (b & 0xF) > 0xF,
carry iff a + b > 255, subtract is false, and A holds (a+b) mod 256. -/
theorem C4_ADD_flags (cpu : CPU) (value : Nat)
    (_ha : cpu.registers.a < 256) (_hv : value < 256) :
    ((cpu.ADD value).1.registers.f.zero = true ↔ (cpu.registers.a + value) % 256 = 0) ∧
    ((cpu.ADD value).1.registers.f.half_carry = true ↔
      0xF < (cpu.registers.a &&& 0xF) + (value &&& 0xF)) ∧
    ((cpu.ADD value).1.registers.f.carry = true ↔ 255 < cpu.registers.a + value) ∧
    (cpu.ADD value).1.registers.f.subtract = false ∧
    (cpu.ADD value).1.registers.a = (cpu.registers.a + value) % 256 := by
  refine ⟨?_, ?_, ?_, ?_, ?_⟩ <;> simp [CPU.ADD]

/-- C4 witness: ADD at A = 200, operand 100 (carry out, no half-carry). -/
theorem C4_ADD_flags_witness :
    (cpu_add.registers.a < 256 ∧ (100 : Nat) < 256) ∧
    (((cpu_add.ADD 100).1.registers.f.zero = true ↔ (cpu_add.registers.a + 100) % 256 = 0) ∧
     ((cpu_add.ADD 100).1.registers.f.half_carry = true ↔
       0xF < (cpu_add.registers.a &&& 0xF) + (100 &&& 0xF)) ∧
     ((cpu_add.ADD 100).1.registers.f.carry = true ↔ 255 < cpu_add.registers.a + 100) ∧
     (cpu_add.ADD 100).1.registers.f.subtract = false ∧
     (cpu_add.ADD 100).1.registers.a = (cpu_add.registers.a + 100) % 256) :=
  ⟨⟨by decide, by decide⟩, C4_ADD_flags cpu_add 100 (by decide) (by decide)⟩

/-- `read_byte` on an in-bounds address. -/
theorem read_byte_some (bus : MemoryBus) (a : Nat) (h : a < MEMORY_ARRAY_SIZE) :
    bus.read_byte a = some (bus.memory a % 256) := by
  simp [MemoryBus.read_byte, h]

/-- `write_byte` on an in-bounds address. -/
theorem write_byte_some (bus : MemoryBus) (a v : Nat) (h : a < MEMORY_ARRAY_SIZE) :
    bus.write_byte a v = some ⟨fun i => if i = a then v % 256 else bus.memory i⟩ := by
  simp [MemoryBus.write_byte, h]

/-- C5: for every 8-bit register value and any starting carry flag, INC then
DEC (and DEC then INC) restores the value, and the carry flag after the pair
equals the carry flag before it, since neither writes carry. -/
theorem C5_INC_DEC_pair (cpu : CPU) (v : Nat) (_hv : v < 256) :
    (((cpu.INC v).1.DEC (cpu.INC v).2).2 = v ∧
     ((cpu.INC v).1.DEC (cpu.INC v).2).1.registers.f.carry = cpu.registers.f.carry) ∧
    (((cpu.DEC v).1.INC (cpu.DEC v).2).2 = v ∧
     ((cpu.DEC v).1.INC (cpu.DEC v).2).1.registers.f.carry = cpu.registers.f.carry) := by
  refine ⟨⟨?_, ?_⟩, ⟨?_, ?_⟩⟩
  all_goals simp [CPU.INC, CPU.DEC]
  all_goals omega

/-- C5 witness: the INC/DEC pair at value 255 (the wrapping boundary). -/
theorem C5_INC_DEC_pair_witness :
    ((((cpu0.INC 255).1.DEC (cpu0.INC 255).2).2 = 255 ∧
      (((cpu0.INC 255).1.DEC (cpu0.INC 255).2).1.registers.f.carry = cpu0.registers.f.carry)) ∧
     (((cpu0.DEC 255).1.INC (cpu0.DEC 255).2).2 = 255 ∧
      (((cpu0.DEC 255).1.INC (cpu0.DEC 255).2).1.registers.f.carry = cpu0.registers.f.carry))) :=
  C5_INC_DEC_pair cpu0 255 (by decide)

/-- `write_word` on a pair of in-bounds addresses: the little-endian pair of
byte stores. -/
theorem write_word_some (bus : MemoryBus) (a v : Nat) (h1 : a < MEMORY_ARRAY_SIZE)
    (h2 : (a + 1) % 65536 < MEMORY_ARRAY_SIZE) :
    bus.write_word a v = some ⟨fun i => if i = (a + 1) % 65536 then ((v &&& 0xFF00) >>> 8) % 256
      else if i = a then (v &&& 0xFF) % 256 else bus.memory i⟩ := by
  simp only [MemoryBus.write_word, Option.bind_eq_bind]
  rw [write_byte_some _ _ _ h1]
  simp only [Option.some_bind]
  rw [write_byte_some _ _ _ h2]

/-- `read_word` on a pair of in-bounds addresses, little-endian. -/
theorem read_word_val (bus : MemoryBus) (a : Nat) (h1 : a < MEMORY_ARRAY_SIZE)
    (h2 : (a + 1) % 65536 < MEMORY_ARRAY_SIZE) :
    bus.read_word a = some (((bus.memory ((a + 1) % 65536) % 256) <<< 8) ||| (bus.memory a % 256)) := by
  simp only [MemoryBus.read_word, Option.bind_eq_bind]
  rw [read_byte_some _ _ h1]
  simp only [Option.some_bind]
  rw [read_byte_some _ _ h2]
  simp only [Option.some_bind]
  rfl

set_option maxRecDepth 8192 in
/-- C6: for every 16-bit value v and every valid stack pointer (one whose
pushed pair of bytes stays inside the backing array, i.e. 2 ≤ sp < 2^16),
PUSH decrements the stack pointer by 2 and writes v little-endian at the new
pointer (low byte at sp-2, high byte at sp-1), and a subsequent POP returns v
and restores the stack pointer to sp. -/
theorem C6_PUSH_POP (cpu : CPU) (v : Nat) (hv : v < 65536)
    (hsp2 : 2 ≤ cpu.sp) (hsp : cpu.sp < 65536) :
    ∃ cpu1, cpu.PUSH v = some cpu1 ∧
      cpu1.sp = cpu.sp - 2 ∧
      cpu1.bus.read_byte (cpu.sp - 2) = some (v &&& 0xFF) ∧
      cpu1.bus.read_byte (cpu.sp - 1) = some ((v &&& 0xFF00) >>> 8) ∧
      ∃ cpu2 r, cpu1.POP = some (cpu2, r) ∧ r = v ∧ cpu2.sp = cpu.sp := by
  have hm : MEMORY_ARRAY_SIZE = 65535 := rfl
  have hlo : v &&& 0xFF ≤ 255 := Nat.and_le_right
  have hhi : (v &&& 0xFF00) >>> 8 ≤ 255 := by
    rw [and_ff00_shiftRight_eq]
    omega
  have hc1 : (cpu.sp + 65534) % 65536 < MEMORY_ARRAY_SIZE := by rw [hm]; omega
  have hc2 : ((cpu.sp + 65534) % 65536 + 1) % 65536 < MEMORY_ARRAY_SIZE := by rw [hm]; omega
  refine ⟨{ cpu with sp := (cpu.sp + 65534) % 65536, bus :=
    ⟨fun i => if i = ((cpu.sp + 65534) % 65536 + 1) % 65536 then ((v &&& 0xFF00) >>> 8) % 256
      else if i = (cpu.sp + 65534) % 65536 then (v &&& 0xFF) % 256
      else cpu.bus.memory i⟩ }, ?_, ?_, ?_, ?_, ?_⟩
  · simp only [CPU.PUSH, Option.bind_eq_bind]
    rw [write_word_some _ _ _ hc1 hc2]
    simp only [Option.some_bind]
    rfl
  · show (cpu.sp + 65534) % 65536 = cpu.sp - 2
    omega
  · rw [read_byte_some _ _ (by rw [hm]; omega)]
    simp only []
    rw [if_neg (by omega), if_pos (by omega), Nat.mod_eq_of_lt (by omega), Nat.mod_eq_of_lt (by omega)]
  · rw [read_byte_some _ _ (by rw [hm]; omega)]
    simp only []
    rw [if_pos (by omega), Nat.mod_eq_of_lt (by omega), Nat.mod_eq_of_lt (by omega)]
  · refine ⟨{ cpu with sp := ((cpu.sp + 65534) % 65536 + 2) % 65536, bus :=
      ⟨fun i => if i = ((cpu.sp + 65534) % 65536 + 1) % 65536 then ((v &&& 0xFF00) >>> 8) % 256
        else if i = (cpu.sp + 65534) % 65536 then (v &&& 0xFF) % 256
        else cpu.bus.memory i⟩ }, v, ?_, rfl, ?_⟩
    · unfold CPU.POP
      rw [read_word_val _ _ hc1 hc2]
      simp only [Option.bind_eq_bind, Option.some_bind, Option.pure_def,
        Option.some.injEq, Prod.mk.injEq, true_and, if_true]
      rw [if_neg (by omega)]
      rw [Nat.mod_mod_of_dvd _ (dvd_refl 256), Nat.mod_mod_of_dvd _ (dvd_refl 256)]
      rw [Nat.mod_eq_of_lt (by omega), Nat.mod_eq_of_lt (by omega)]
      exact word_bytes_roundtrip v hv
    · show ((cpu.sp + 65534) % 65536 + 2) % 65536 = cpu.sp
      omega

/-- CPU with stack pointer 0x100, for exercising PUSH/POP. -/
def cpu_stack : CPU := ⟨regs0, 0, 0x100, bus0⟩

/-- C6 witness: PUSH then POP of 0xABCD at sp = 0x100. -/
theorem C6_PUSH_POP_witness :
    ((0xABCD : Nat) < 65536 ∧ 2 ≤ cpu_stack.sp ∧ cpu_stack.sp < 65536) ∧
    (∃ cpu1, cpu_stack.PUSH 0xABCD = some cpu1 ∧
      cpu1.sp = cpu_stack.sp - 2 ∧
      cpu1.bus.read_byte (cpu_stack.sp - 2) = some (0xABCD &&& 0xFF) ∧
      cpu1.bus.read_byte (cpu_stack.sp - 1) = some ((0xABCD &&& 0xFF00) >>> 8) ∧
      ∃ cpu2 r, cpu1.POP = some (cpu2, r) ∧ r = 0xABCD ∧ cpu2.sp = cpu_stack.sp) :=
  ⟨⟨by decide, by decide, by decide⟩,
   C6_PUSH_POP cpu_stack 0xABCD (by decide) (by decide) (by decide)⟩

/-- CPU with HL = 0x8A23 and zero/subtract flags set, sp = 0x0605, for
exercising ADDHL. -/
def cpu_hl : CPU := ⟨⟨0, 0, 0, 0, 0, ⟨true, true, false, false⟩, 0x8A, 0x23⟩, 0, 0x0605, bus0⟩

/-- C7: for every 16-bit operand and every prior flag state, ADDHL leaves the
zero flag untouched, clears subtract, sets half-carry iff there is a carry out
of bit 11 into bit 12 of the sum, sets carry iff the 16-bit unsigned sum
overflows, and stores the modular 16-bit sum in the HL pair. -/
theorem C7_ADDHL_flags (cpu : CPU) (value : Nat)
    (_hh : cpu.registers.h < 256) (_hl : cpu.registers.l < 256) (_hv : value < 65536) :
    ((cpu.ADDHL value).1.registers.f.zero = cpu.registers.f.zero) ∧
    ((cpu.ADDHL value).1.registers.f.subtract = false) ∧
    ((cpu.ADDHL value).1.registers.f.half_carry = true ↔
      0xFFF < (cpu.registers.get_hl &&& 0xFFF) + (value &&& 0xFFF)) ∧
    ((cpu.ADDHL value).1.registers.f.carry = true ↔ 65535 < cpu.registers.get_hl + value) ∧
    ((cpu.ADDHL value).1.registers.get_hl = (cpu.registers.get_hl + value) % 65536) := by
  refine ⟨?_, ?_, ?_, ?_, ?_⟩
  · simp [CPU.ADDHL, Registers.set_hl]
  · simp [CPU.ADDHL, Registers.set_hl]
  · simp [CPU.ADDHL, Registers.set_hl]
  · simp [CPU.ADDHL, Registers.set_hl]
  · simp only [CPU.ADDHL, Registers.set_hl, Registers.get_hl]
    exact word_bytes_roundtrip _ (Nat.mod_lt _ (by norm_num))

/-- C7 witness: ADDHL of the stack pointer 0x0605 into HL = 0x8A23 with the
zero flag initially set (half-carry out of bit 11, no 16-bit overflow). -/
theorem C7_ADDHL_flags_witness :
    (cpu_hl.registers.h < 256 ∧ cpu_hl.registers.l < 256 ∧ cpu_hl.sp < 65536) ∧
    (((cpu_hl.ADDHL cpu_hl.sp).1.registers.f.zero = cpu_hl.registers.f.zero) ∧
     ((cpu_hl.ADDHL cpu_hl.sp).1.registers.f.subtract = false) ∧
     ((cpu_hl.ADDHL cpu_hl.sp).1.registers.f.half_carry = true ↔
       0xFFF < (cpu_hl.registers.get_hl &&& 0xFFF) + (cpu_hl.sp &&& 0xFFF)) ∧
     ((cpu_hl.ADDHL cpu_hl.sp).1.registers.f.carry = true ↔
       65535 < cpu_hl.registers.get_hl + cpu_hl.sp) ∧
     ((cpu_hl.ADDHL cpu_hl.sp).1.registers.get_hl =
       (cpu_hl.registers.get_hl + cpu_hl.sp) % 65536)) :=
  ⟨⟨by decide, by decide, by decide⟩,
   C7_ADDHL_flags cpu_hl cpu_hl.sp (by decide) (by decide) (by decide)⟩

/-- C9: for every tested byte, bit index and prior carry flag, BIT sets zero
iff the indexed bit is clear, clears subtract, sets half-carry, leaves the
carry flag as it was, and modifies neither the registers, the byte it tested,
nor the bus; at the execute level every successful BIT dispatch leaves bus and
registers (apart from flags) unchanged and advances pc by 2. -/
theorem C9_BIT_flags (cpu : CPU) (bit r : Nat) :
    ((cpu.BIT bit r).registers.f.zero = true ↔ r.testBit bit = false) ∧
    (cpu.BIT bit r).registers.f.subtract = false ∧
    (cpu.BIT bit r).registers.f.half_carry = true ∧
    (cpu.BIT bit r).registers.f.carry = cpu.registers.f.carry ∧
    ((cpu.BIT bit r).registers.a = cpu.registers.a ∧
     (cpu.BIT bit r).registers.b = cpu.registers.b ∧
     (cpu.BIT bit r).registers.c = cpu.registers.c ∧
     (cpu.BIT bit r).registers.d = cpu.registers.d ∧
     (cpu.BIT bit r).registers.e = cpu.registers.e ∧
     (cpu.BIT bit r).registers.h = cpu.registers.h ∧
     (cpu.BIT bit r).registers.l = cpu.registers.l ∧
     (cpu.BIT bit r).pc = cpu.pc ∧ (cpu.BIT bit r).sp = cpu.sp ∧
     (cpu.BIT bit r).bus = cpu.bus) ∧
    (∀ target cpu2 npc, cpu.execute (Instruction.BIT bit target) = some (cpu2, npc) →
      cpu2.bus = cpu.bus ∧ cpu2.registers.a = cpu.registers.a ∧
      cpu2.registers.b = cpu.registers.b ∧ cpu2.registers.c = cpu.registers.c ∧
      cpu2.registers.d = cpu.registers.d ∧ cpu2.registers.e = cpu.registers.e ∧
      cpu2.registers.h = cpu.registers.h ∧ cpu2.registers.l = cpu.registers.l ∧
      cpu2.registers.f.carry = cpu.registers.f.carry ∧
      npc = (cpu.pc + 2) % 65536) := by
  refine ⟨?_, rfl, rfl, rfl, ⟨rfl, rfl, rfl, rfl, rfl, rfl, rfl, rfl, rfl, rfl⟩, ?_⟩
  · simp only [CPU.BIT]
    rw [← and_one_shiftLeft_bne]
    cases h : (r &&& (1 <<< bit) != 0) <;> simp_all
  · intro target cpu2 npc h
    cases target <;>
      simp only [CPU.execute, Option.bind_eq_bind, Option.some_bind, Option.none_bind,
        Option.pure_def, Option.some.injEq, Prod.mk.injEq] at h
    case HL =>
      rcases hread : cpu.bus.read_byte cpu.registers.get_hl with _ | rv <;> rw [hread] at h
      · simp at h
      · simp only [Option.some_bind, Option.some.injEq, Prod.mk.injEq] at h
        obtain ⟨h1, h2⟩ := h
        subst h1
        subst h2
        exact ⟨rfl, rfl, rfl, rfl, rfl, rfl, rfl, rfl, rfl, rfl⟩
    all_goals
      obtain ⟨h1, h2⟩ := h
    all_goals subst h1
    all_goals subst h2
    all_goals exact ⟨rfl, rfl, rfl, rfl, rfl, rfl, rfl, rfl, rfl, rfl⟩

/-- CPU with register B = 6 (bit 1 set, bit 0 clear) and the carry flag set,
for exercising BIT. -/
def cpu_bit : CPU := ⟨⟨0, 6, 0, 0, 0, ⟨false, false, false, true⟩, 0, 0⟩, 0x200, 0, bus0⟩

/-- C9 witness: BIT 1 of register B = 6, with carry initially set, both at the
flag level and through the execute dispatch for target B. -/
theorem C9_BIT_flags_witness :
    ((cpu_bit.BIT 1 cpu_bit.registers.b).registers.f.zero = true ↔
      Nat.testBit cpu_bit.registers.b 1 = false) ∧
    (cpu_bit.BIT 1 cpu_bit.registers.b).registers.f.carry = cpu_bit.registers.f.carry ∧
    ((cpu_bit.BIT 1 cpu_bit.registers.b).bus = cpu_bit.bus ∧
     (cpu_bit.BIT 1 cpu_bit.registers.b).registers.a = cpu_bit.registers.a ∧
     (cpu_bit.BIT 1 cpu_bit.registers.b).registers.b = cpu_bit.registers.b ∧
     (cpu_bit.BIT 1 cpu_bit.registers.b).registers.c = cpu_bit.registers.c ∧
     (cpu_bit.BIT 1 cpu_bit.registers.b).registers.d = cpu_bit.registers.d ∧
     (cpu_bit.BIT 1 cpu_bit.registers.b).registers.e = cpu_bit.registers.e ∧
     (cpu_bit.BIT 1 cpu_bit.registers.b).registers.h = cpu_bit.registers.h ∧
     (cpu_bit.BIT 1 cpu_bit.registers.b).registers.l = cpu_bit.registers.l ∧
     (cpu_bit.BIT 1 cpu_bit.registers.b).registers.f.carry = cpu_bit.registers.f.carry ∧
     (cpu_bit.pc + 2) % 65536 = (cpu_bit.pc + 2) % 65536) :=
  ⟨(C9_BIT_flags cpu_bit 1 cpu_bit.registers.b).1,
   (C9_BIT_flags cpu_bit 1 cpu_bit.registers.b).2.2.2.1,
   (C9_BIT_flags cpu_bit 1 cpu_bit.registers.b).2.2.2.2.2 ArithmeticTarget.B
     (cpu_bit.BIT 1 cpu_bit.registers.b) ((cpu_bit.pc + 2) % 65536) rfl⟩

/-- C8: every write strictly inside the tile-data region recomputes the 8
pixels of the affected tile row: for each column p (leftmost pixel p = 0 from
bit 7), the pixel combines the high (odd) byte's bit as most-significant and
the low (even) byte's bit as least-significant contribution, with (msb,lsb)
mapping 00 to Zero, 01 to One, 10 to Two and 11 to Three. -/
theorem C8_tile_row_decode (gpu : GPU) (index value : Nat) (hidx : index < TILE_DATA_SIZE) :
    (gpu.write_vram index value).isSome = true ∧
    (∀ gpu2, gpu.write_vram index value = some gpu2 → ∀ p, p < 8 →
      gpu2.tile_set ((index &&& 0xFFFE) / 16) (((index &&& 0xFFFE) % 16) / 2) p =
        (if (gpu2.vram ((index &&& 0xFFFE) + 1)).testBit (7 - p) then
          (if (gpu2.vram (index &&& 0xFFFE)).testBit (7 - p) then TilePixelValue.Three
           else TilePixelValue.Two)
         else
          (if (gpu2.vram (index &&& 0xFFFE)).testBit (7 - p) then TilePixelValue.One
           else TilePixelValue.Zero))) := by
  have ht : TILE_DATA_SIZE = 6144 := rfl
  have hv : VRAM_SIZE = 8192 := rfl
  have hvs : index < VRAM_SIZE := by omega
  have hnt : ¬ (TILE_DATA_SIZE ≤ index) := by omega
  constructor
  · simp only [GPU.write_vram, hvs, hnt, if_true, if_false, ite_true, ite_false]
    rfl
  · intro gpu2 h p hp
    simp only [GPU.write_vram, hvs, hnt, if_true, if_false, ite_true, ite_false,
      Option.some.injEq] at h
    subst h
    rw [show List.range 8 = [0, 1, 2, 3, 4, 5, 6, 7] from rfl]
    simp only [List.foldl_cons, List.foldl_nil]
    have hm7 : ∀ x : Nat, (x &&& 128 != 0) = x.testBit 7 := fun x => and_one_shiftLeft_bne x 7
    have hm6 : ∀ x : Nat, (x &&& 64 != 0) = x.testBit 6 := fun x => and_one_shiftLeft_bne x 6
    have hm5 : ∀ x : Nat, (x &&& 32 != 0) = x.testBit 5 := fun x => and_one_shiftLeft_bne x 5
    have hm4 : ∀ x : Nat, (x &&& 16 != 0) = x.testBit 4 := fun x => and_one_shiftLeft_bne x 4
    have hm3 : ∀ x : Nat, (x &&& 8 != 0) = x.testBit 3 := fun x => and_one_shiftLeft_bne x 3
    have hm2 : ∀ x : Nat, (x &&& 4 != 0) = x.testBit 2 := fun x => and_one_shiftLeft_bne x 2
    have hm1 : ∀ x : Nat, (x &&& 2 != 0) = x.testBit 1 := fun x => and_one_shiftLeft_bne x 1
    have hm0 : ∀ x : Nat, (x &&& 1 != 0) = x.testBit 0 := fun x => and_one_shiftLeft_bne x 0
    interval_cases p <;>
      simp [hm0, hm1, hm2, hm3, hm4, hm5, hm6, hm7] <;>
      split <;>
      simp_all

/-- GPU whose vram holds the low row byte 0b11000000 at offset 0, about to
receive the high byte 0b10000000 at offset 1. -/
def gpu_low : GPU := ⟨fun i => if i = 0 then 0xC0 else 0, fun _ _ _ => TilePixelValue.Zero⟩

/-- C8 witness: writing high byte 0b10000000 at offset 1 next to low byte
0b11000000 yields row pixel values [3, 1, 0, 0, 0, 0, 0, 0]. -/
theorem C8_tile_row_decode_witness :
    (1 : Nat) < TILE_DATA_SIZE ∧
    ((gpu_low.write_vram 1 0x80).isSome = true ∧
     (∀ gpu2, gpu_low.write_vram 1 0x80 = some gpu2 → ∀ p, p < 8 →
       gpu2.tile_set ((1 &&& 0xFFFE) / 16) (((1 &&& 0xFFFE) % 16) / 2) p =
         (if (gpu2.vram ((1 &&& 0xFFFE) + 1)).testBit (7 - p) then
           (if (gpu2.vram (1 &&& 0xFFFE)).testBit (7 - p) then TilePixelValue.Three
            else TilePixelValue.Two)
          else
           (if (gpu2.vram (1 &&& 0xFFFE)).testBit (7 - p) then TilePixelValue.One
            else TilePixelValue.Zero)))) ∧
    (gpu_low.write_vram 1 0x80).map
      (fun g => (List.range 8).map (fun p => (g.tile_set 0 0 p).toNat)) =
      some [3, 1, 0, 0, 0, 0, 0, 0] :=
  ⟨by decide, C8_tile_row_decode gpu_low 1 0x80 (by decide), by decide⟩

/-- C10: a write at an in-bounds VRAM index at or beyond the tile-data
boundary stores the raw byte (a subsequent read returns it), changes no other
vram cell, and leaves the decoded tile set completely unchanged — tile
decoding happens only for indices strictly inside the tile-data region. -/
theorem C10_raw_region (gpu : GPU) (index value : Nat)
    (h1 : TILE_DATA_SIZE ≤ index) (h2 : index < VRAM_SIZE) (h3 : value < 256) :
    gpu.write_vram index value =
      some ⟨fun i => if i = index then value % 256 else gpu.vram i, gpu.tile_set⟩ ∧
    (∀ gpu2, gpu.write_vram index value = some gpu2 →
      gpu2.read_vram index = some value ∧
      gpu2.tile_set = gpu.tile_set ∧
      (∀ i, i ≠ index → gpu2.vram i = gpu.vram i)) := by
  have hw : gpu.write_vram index value =
      some ⟨fun i => if i = index then value % 256 else gpu.vram i, gpu.tile_set⟩ := by
    simp only [GPU.write_vram, h2, h1, if_true, if_false, ite_true, ite_false]
  refine ⟨hw, ?_⟩
  intro gpu2 h
  rw [hw, Option.some.injEq] at h
  subst h
  refine ⟨?_, rfl, ?_⟩
  · simp only [GPU.read_vram, h2, if_true, ite_true]
    congr 1
    omega
  · intro i hi
    simp [hi]

/-- GPU with blank vram and tile set, for exercising the raw region write. -/
def gpu_raw : GPU := ⟨fun _ => 0, fun _ _ _ => TilePixelValue.Zero⟩

/-- C10 witness: writing 7 at VRAM offset 0x1900 (inside the region at or
beyond the tile-data boundary). -/
theorem C10_raw_region_witness :
    (TILE_DATA_SIZE ≤ 0x1900 ∧ (0x1900 : Nat) < VRAM_SIZE ∧ (7 : Nat) < 256) ∧
    (gpu_raw.write_vram 0x1900 7 =
      some ⟨fun i => if i = 0x1900 then 7 % 256 else gpu_raw.vram i, gpu_raw.tile_set⟩ ∧
     (∀ gpu2, gpu_raw.write_vram 0x1900 7 = some gpu2 →
       gpu2.read_vram 0x1900 = some 7 ∧
       gpu2.tile_set = gpu_raw.tile_set ∧
       (∀ i, i ≠ 0x1900 → gpu2.vram i = gpu_raw.vram i))) :=
  ⟨⟨by decide, by decide, by decide⟩,
   C10_raw_region gpu_raw 0x1900 7 (by decide) (by decide) (by decide)⟩

end GB
